import Mathlib

/-!
Shallow embedding of `src/src/CompliantContactSubsystem.cpp` (Simbody's
compliant contact subsystem): the Hertz + Hunt-Crossley + friction force
generator, the stribeck friction curve, the generator registry, the force
and potential-energy cache builds, and the checked setters.

C++ `Real` is modelled by `ℝ`; `Vec3` by a triple of reals; `SpatialVec`
by a pair of `Vec3` (rotational, translational).  Fallible operations
(`SimTK_ERRCHK..._ALWAYS`) are modelled with `Option`: `none` means the
fatal error fired and no state was mutated.
-/

noncomputable section

/-- C++ `Vec3`: a 3-vector of reals. -/
structure Vec3 where
  x : ℝ
  y : ℝ
  z : ℝ

namespace Vec3

def zero : Vec3 := ⟨0, 0, 0⟩

instance : Zero Vec3 := ⟨Vec3.zero⟩

def add (a b : Vec3) : Vec3 := ⟨a.x + b.x, a.y + b.y, a.z + b.z⟩

instance : Add Vec3 := ⟨Vec3.add⟩

def sub (a b : Vec3) : Vec3 := ⟨a.x - b.x, a.y - b.y, a.z - b.z⟩

instance : Sub Vec3 := ⟨Vec3.sub⟩

def smul (r : ℝ) (v : Vec3) : Vec3 := ⟨r * v.x, r * v.y, r * v.z⟩

instance : SMul ℝ Vec3 := ⟨Vec3.smul⟩

/-- C++ `dot(v, w)`. -/
def dot (a b : Vec3) : ℝ := a.x * b.x + a.y * b.y + a.z * b.z

/-- C++ `v.normSqr()`. -/
def normSqr (v : Vec3) : ℝ := v.dot v

end Vec3

/-- C++ `SpatialVec = Vec2<Vec3>`: rotational and translational component. -/
abbrev SpatialVec := Vec3 × Vec3

/-- `SpatialVec(Vec3(0))`: both components zero. -/
def SpatialVec.zero : SpatialVec := (0, 0)

/-- C++ `ContactMaterial`: the fields read by `HertzCircular::calcContactForce`. -/
structure ContactMaterial where
  stiffness23 : ℝ       -- getStiffness23(): 2/3 power of stiffness
  dissipation : ℝ       -- getDissipation()
  staticFriction : ℝ    -- getStaticFriction()
  dynamicFriction : ℝ   -- getDynamicFriction()
  viscousFriction : ℝ   -- getViscousFriction()

/-- `ContactMaterial` constructor preconditions (nonnegative coefficients,
static friction at least dynamic), used as hypotheses where a claim needs
them. -/
def ContactMaterial.WellFormed (m : ContactMaterial) : Prop :=
  0 ≤ m.stiffness23 ∧ 0 ≤ m.dissipation ∧ 0 ≤ m.dynamicFriction ∧
    m.dynamicFriction ≤ m.staticFriction ∧ 0 ≤ m.viscousFriction

/-- C++ `CircularPointContact` (the fields read by the generator):
two surface indices, signed depth, unit normal (surface1 → surface2),
origin, effective radius and stable contact id. -/
structure CircularPointContact where
  surface1 : ℕ
  surface2 : ℕ
  depth : ℝ
  normal : Vec3
  origin : Vec3
  effectiveRadius : ℝ
  contactId : ℕ

/-- The external `ContactTrackerSubsystem` data consulted by the generator:
each surface's material, the ground-frame velocity of the material point of
the body carrying a surface at a given ground location (the composition
`findStationAtGroundPoint` then `findStationVelocityInGround`), and the
surface frame's spatial velocity (`findFrameVelocityInGround`, passed to the
generator as `V_GS1`/`V_GS2`). -/
structure Tracker where
  material : ℕ → ContactMaterial
  velAtPoint : ℕ → Vec3 → Vec3
  frameVelocity : ℕ → SpatialVec

/-- C++ `ContactForce`.  `clear()` invalidates the contact id;
`isValid()` checks it, so the id is carried as an `Option`. -/
structure ContactForce where
  contactId : Option ℕ
  centerOfPressureInG : Vec3
  forceOnSurface2InG : SpatialVec
  potentialEnergy : ℝ
  powerLoss : ℝ

/-- `contactForce.clear()`: invalidated result. -/
def ContactForce.cleared : ContactForce :=
  { contactId := none
    centerOfPressureInG := 0
    forceOnSurface2InG := SpatialVec.zero
    potentialEnergy := 0
    powerLoss := 0 }

/-- `contactForce.isValid()`. -/
def ContactForce.isValid (f : ContactForce) : Bool := f.contactId.isSome

--==============================================================================
-- Generator registry (CompliantContactSubsystemImpl)
--==============================================================================

/-- The concrete generator classes registered by the subsystem constructor. -/
inductive GeneratorKind
  | hertzCircular
  | elasticFoundation
  | doNothing
  | custom (n : ℕ)

/-- A `ContactForceGenerator` as seen by the registry: its class and the
`ContactTypeId` it handles. -/
structure ContactForceGenerator where
  kind : GeneratorKind
  contactTypeId : ℕ

/-- `CircularPointContact::classTypeId()`, handled by `HertzCircular`. -/
def circularPointContactTypeId : ℕ := 1

/-- `TriangleMeshContact::classTypeId()`, handled by `ElasticFoundation`. -/
def triangleMeshContactTypeId : ℕ := 2

/-- The mutable state of `CompliantContactSubsystemImpl` relevant to the
registry and setter claims.  `topologyCacheValid = false` models a call to
`invalidateSubsystemTopologyCache()`, which invalidates every state cache
(force and potential-energy caches included) derived from the topology.
`disposed` records the generators freed with `delete`. -/
structure CompliantContactSubsystemImpl where
  transitionVelocity : ℝ
  ooTransitionVelocity : ℝ
  generators : List (ℕ × ContactForceGenerator)
  defaultGenerator : Option ContactForceGenerator
  disposed : List ContactForceGenerator
  topologyCacheValid : Bool

/-- `CompliantContactSubsystemImpl` constructor: transition velocity 0.01,
reciprocal cached, empty registry, null default generator. -/
def implInitial : CompliantContactSubsystemImpl :=
  { transitionVelocity := 0.01
    ooTransitionVelocity := 1 / 0.01
    generators := []
    defaultGenerator := none
    disposed := []
    topologyCacheValid := true }

/-- `CompliantContactSubsystemImpl::adoptForceGenerator`: invalidate the
topology cache; if the map already holds a generator for this contact type,
delete it and put the new one in its place, otherwise insert the new one. -/
def adoptForceGenerator (s : CompliantContactSubsystemImpl)
    (g : ContactForceGenerator) : CompliantContactSubsystemImpl :=
  match s.generators.find? (fun p => p.1 = g.contactTypeId) with
  | some p =>
      { s with
        topologyCacheValid := false
        generators := s.generators.map
          (fun q => if q.1 = g.contactTypeId then (q.1, g) else q)
        disposed := p.2 :: s.disposed }
  | none =>
      { s with
        topologyCacheValid := false
        generators := s.generators ++ [(g.contactTypeId, g)] }

/-- `CompliantContactSubsystemImpl::adoptDefaultForceGenerator`: invalidate
the topology cache, delete the previous default, store the new one (null is
legal). -/
def adoptDefaultForceGenerator (s : CompliantContactSubsystemImpl)
    (g : Option ContactForceGenerator) : CompliantContactSubsystemImpl :=
  { s with
    topologyCacheValid := false
    disposed :=
      match s.defaultGenerator with
      | some d => d :: s.disposed
      | none => s.disposed
    defaultGenerator := g }

/-- `CompliantContactSubsystemImpl::hasForceGenerator`. -/
def hasForceGenerator (s : CompliantContactSubsystemImpl) (t : ℕ) : Bool :=
  (s.generators.find? (fun p => p.1 = t)).isSome

/-- `CompliantContactSubsystemImpl::hasDefaultForceGenerator`. -/
def hasDefaultForceGenerator (s : CompliantContactSubsystemImpl) : Bool :=
  s.defaultGenerator.isSome

/-- `CompliantContactSubsystemImpl::getForceGenerator`: the registered
generator for this type if present, otherwise the default generator
(`none` models the failed `assert(m_defaultGenerator)`). -/
def getForceGenerator (s : CompliantContactSubsystemImpl) (t : ℕ) :
    Option ContactForceGenerator :=
  match s.generators.find? (fun p => p.1 = t) with
  | some p => some p.2
  | none => s.defaultGenerator

/-- Number of registry entries for a contact-type id. -/
def countGeneratorEntries (s : CompliantContactSubsystemImpl) (t : ℕ) : ℕ :=
  (s.generators.filter (fun p => p.1 = t)).length

/-- The `CompliantContactSubsystem` constructor body: build the impl, then
register a `HertzCircular` generator, an `ElasticFoundation` generator, and
a `DoNothing` default generator. -/
def constructedSubsystem : CompliantContactSubsystemImpl :=
  adoptDefaultForceGenerator
    (adoptForceGenerator
      (adoptForceGenerator implInitial
        ⟨GeneratorKind.hertzCircular, circularPointContactTypeId⟩)
      ⟨GeneratorKind.elasticFoundation, triangleMeshContactTypeId⟩)
    (some ⟨GeneratorKind.doNothing, 0⟩)

/-- `CompliantContactSubsystem::setTransitionVelocity`: the facade rejects
`vt ≤ 0` with a fatal error (`none`), otherwise stores `vt` and caches its
reciprocal. -/
def setTransitionVelocity (s : CompliantContactSubsystemImpl) (vt : ℝ) :
    Option CompliantContactSubsystemImpl :=
  if vt > 0 then
    some { s with transitionVelocity := vt, ooTransitionVelocity := 1 / vt }
  else
    none

/-- The continuous (Z) state holding the dissipated-energy variable. -/
structure SimState where
  dissipatedEnergy : ℝ

/-- `CompliantContactSubsystem::setDissipatedEnergy`: rejects negative
values with a fatal error (`none`), otherwise writes the state variable. -/
def setDissipatedEnergy (s : SimState) (energy : ℝ) : Option SimState :=
  if energy ≥ 0 then some { s with dissipatedEnergy := energy } else none

/-- `CompliantContactSubsystem::getDissipatedEnergy`. -/
def getDissipatedEnergy (s : SimState) : ℝ := s.dissipatedEnergy

--==============================================================================
-- Concrete fixtures used by witnesses and counterexample evaluations
--==============================================================================

/-- Material with 2/3-power stiffness 100 and everything else zero. -/
def matA : ContactMaterial := ⟨100, 0, 0, 0, 0⟩

/-- Material with 2/3-power stiffness 400 and everything else zero. -/
def matB : ContactMaterial := ⟨400, 0, 0, 0, 0⟩

/-- Material with stiffness 100 and dissipation 1 (frictionless). -/
def matC : ContactMaterial := ⟨100, 1, 0, 0, 0⟩

/-- Circular-point contact between surfaces 1 and 2: depth 0.01, normal
(1,0,0), origin at the ground origin, effective radius 1, contact id 7. -/
def contact0 : CircularPointContact := ⟨1, 2, 0.01, ⟨1, 0, 0⟩, ⟨0, 0, 0⟩, 1, 7⟩

/-- The C1 scenario: surface 1 has stiffness 100, surface 2 has stiffness
400, both dissipation-free, and everything is at rest. -/
def trackerC1 : Tracker :=
  { material := fun i => if i = 1 then matA else matB
    velAtPoint := fun _ _ => ⟨0, 0, 0⟩
    frameVelocity := fun _ => SpatialVec.zero }

/-- A separating state: the body of surface 1 moves at (-1,0,0) (so the
penetration rate is −1 against the (1,0,0) normal), surface 2 is at rest;
both materials have dissipation 1. -/
def trackerYank : Tracker :=
  { material := fun _ => matC
    velAtPoint := fun i _ => if i = 1 then ⟨-1, 0, 0⟩ else ⟨0, 0, 0⟩
    frameVelocity := fun _ => SpatialVec.zero }

--==============================================================================
-- Friction curves
--==============================================================================

/-- C++ `step5`: quintic S-curve `x³(10 + x(6x − 15))`, 0→1 on [0,1]. -/
def step5 (x : ℝ) : ℝ :=
  let x3 := x * x * x
  x3 * (10 + x * (6 * x - 15))

/-- C++ `step5d`: quintic from 0 to `y` on [0,1] with end slope `yd`. -/
def step5d (y yd x : ℝ) : ℝ :=
  let a := 6 * y - 3 * yd
  let b := -15 * y + 7 * yd
  let c := 10 * y - 4 * yd
  let x3 := x * x * x
  x3 * (c + x * (b + x * a))

/-- C++ `stribeck`: the four-segment friction-coefficient curve.
`uv` and `v` are dimensionless multiples of the transition velocity. -/
def stribeck (us ud uv v : ℝ) : ℝ :=
  if v ≤ 1 then us * step5 v
  else if v ≤ 3 then us - (us - ud) * step5 ((v - 1) / 2)
  else if v ≤ 4 then ud + step5d uv uv (v - 3)
  else ud + uv * (v - 3)

/-- The friction-coefficient combining rule from the generator:
`u = 2·u1·u2`, divided by `u1+u2` only when nonzero (avoiding 0/0). -/
def combineCoef (u1 u2 : ℝ) : ℝ :=
  let u := 2 * u1 * u2
  if u ≠ 0 then u / (u1 + u2) else u

/-- C++ `SignificantReal`: a small positive machine constant; the friction
branch is entered only when the squared slip speed exceeds its square. -/
def significantReal : ℝ := 1 / 100000000000000

--==============================================================================
-- Hertz circular generator
--==============================================================================

namespace HertzCircular

variable (tracker : Tracker) (contact : CircularPointContact)

/-- Material of surface 1 (`tracker.getContactSurface(getSurface1()).getMaterial()`). -/
def mat1 (tracker : Tracker) (contact : CircularPointContact) : ContactMaterial :=
  tracker.material contact.surface1

/-- The source fetches `mat2` with `contact.getSurface1()` again
(lines 581-582), so surface 2's material is never read. -/
def mat2 (tracker : Tracker) (contact : CircularPointContact) : ContactMaterial :=
  tracker.material contact.surface1

/-- `s1 = k2/(k1+k2)`: fraction of the deformation done by surface 1. -/
def s1 (tracker : Tracker) (contact : CircularPointContact) : ℝ :=
  (mat2 tracker contact).stiffness23 /
    ((mat1 tracker contact).stiffness23 + (mat2 tracker contact).stiffness23)

/-- `s2 = 1 − s1`. -/
def s2 (tracker : Tracker) (contact : CircularPointContact) : ℝ :=
  1 - s1 tracker contact

/-- Combined stiffness `k = k1·s1`. -/
def k (tracker : Tracker) (contact : CircularPointContact) : ℝ :=
  (mat1 tracker contact).stiffness23 * s1 tracker contact

/-- Combined dissipation `c = c1·s1 + c2·s2`. -/
def cdiss (tracker : Tracker) (contact : CircularPointContact) : ℝ :=
  (mat1 tracker contact).dissipation * s1 tracker contact +
    (mat2 tracker contact).dissipation * s2 tracker contact

/-- `contactPt = origin + (x·(0.5 − s1))·normal`. -/
def contactPt (tracker : Tracker) (contact : CircularPointContact) : Vec3 :=
  contact.origin + (contact.depth * (0.5 - s1 tracker contact)) • contact.normal

/-- Hertz force `fH = (4/3)·k·x·sqrt(R·k·x)`. -/
def fH (tracker : Tracker) (contact : CircularPointContact) : ℝ :=
  (4 / 3) * k tracker contact * contact.depth *
    Real.sqrt (contact.effectiveRadius * k tracker contact * contact.depth)

/-- Relative velocity `vel = vel1 − vel2` of the two bodies' material points
at the contact point (computed from the state, not from `V_GS1`/`V_GS2`). -/
def relVel (tracker : Tracker) (contact : CircularPointContact) : Vec3 :=
  tracker.velAtPoint contact.surface1 (contactPt tracker contact) -
    tracker.velAtPoint contact.surface2 (contactPt tracker contact)

/-- Penetration rate `xdot = dot(vel, normal)` (signed). -/
def xdot (tracker : Tracker) (contact : CircularPointContact) : ℝ :=
  (relVel tracker contact).dot contact.normal

/-- Tangential slip velocity `velTangent = vel − xdot·normal`. -/
def velTangent (tracker : Tracker) (contact : CircularPointContact) : Vec3 :=
  relVel tracker contact - xdot tracker contact • contact.normal

/-- Hunt-Crossley force `fHC = fH·1.5·c·xdot`. -/
def fHC (tracker : Tracker) (contact : CircularPointContact) : ℝ :=
  fH tracker contact * 1.5 * cdiss tracker contact * xdot tracker contact

/-- Total normal force `fNormal = fH + fHC`. -/
def fNormal (tracker : Tracker) (contact : CircularPointContact) : ℝ :=
  fH tracker contact + fHC tracker contact

/-- Squared tangential slip speed `vslipSq = velTangent.normSqr()`. -/
def vslipSq (tracker : Tracker) (contact : CircularPointContact) : ℝ :=
  (velTangent tracker contact).normSqr

/-- Slip speed `vslip = sqrt(vslipSq)`. -/
def vslip (tracker : Tracker) (contact : CircularPointContact) : ℝ :=
  Real.sqrt (vslipSq tracker contact)

/-- Combined static friction `us = 2·us1·us2/(us1+us2)` (0 when either is 0). -/
def usEff (tracker : Tracker) (contact : CircularPointContact) : ℝ :=
  combineCoef (mat1 tracker contact).staticFriction
    (mat2 tracker contact).staticFriction

/-- Combined dynamic friction. -/
def udEff (tracker : Tracker) (contact : CircularPointContact) : ℝ :=
  combineCoef (mat1 tracker contact).dynamicFriction
    (mat2 tracker contact).dynamicFriction

/-- Combined viscous friction. -/
def uvEff (tracker : Tracker) (contact : CircularPointContact) : ℝ :=
  combineCoef (mat1 tracker contact).viscousFriction
    (mat2 tracker contact).viscousFriction

/-- Effective friction coefficient `mu = stribeck(us, ud, uv·vtrans,
vslip·ooVtrans)`, the slip speed expressed as a dimensionless multiple of
the transition velocity. -/
def mu (subsys : CompliantContactSubsystemImpl) (tracker : Tracker)
    (contact : CircularPointContact) : ℝ :=
  stribeck (usEff tracker contact) (udEff tracker contact)
    (uvEff tracker contact * subsys.transitionVelocity)
    (vslip tracker contact * subsys.ooTransitionVelocity)

/-- Friction force magnitude `fFriction = fNormal · mu`. -/
def fFriction (subsys : CompliantContactSubsystemImpl) (tracker : Tracker)
    (contact : CircularPointContact) : ℝ :=
  fNormal tracker contact * mu subsys tracker contact

/-- The friction branch: when the squared slip speed exceeds the threshold,
the friction force `(fFriction/vslip)·velTangent` and its power
`fFriction·vslip`; otherwise both are zero. -/
def frictionResult (subsys : CompliantContactSubsystemImpl)
    (tracker : Tracker) (contact : CircularPointContact) : Vec3 × ℝ :=
  if vslipSq tracker contact > significantReal ^ 2 then
    ((fFriction subsys tracker contact / vslip tracker contact) •
        velTangent tracker contact,
     fFriction subsys tracker contact * vslip tracker contact)
  else
    (0, 0)

/-- `ContactForceGenerator::HertzCircular::calcContactForce`.  The spatial
velocities `vgs1`, `vgs2` are accepted but never read, exactly as in the
source (which recomputes station velocities from the state; see the
`TODO: wrong velocity` comment there). -/
def calcContactForce (subsys : CompliantContactSubsystemImpl)
    (tracker : Tracker) (contact : CircularPointContact)
    (vgs1 vgs2 : SpatialVec) : ContactForce :=
  if contact.depth ≤ 0 then
    ContactForce.cleared
  else if fNormal tracker contact ≤ 0 then
    -- "yanking": contact persists but produces no force this instant
    { contactId := some contact.contactId
      centerOfPressureInG := contactPt tracker contact
      forceOnSurface2InG := SpatialVec.zero
      potentialEnergy := 0
      powerLoss := 0 }
  else
    let forceH := fH tracker contact • contact.normal
    let potentialEnergy := (2 / 5) * fH tracker contact * contact.depth
    let forceHC := fHC tracker contact • contact.normal
    let powerHC := fHC tracker contact * xdot tracker contact
    let fr := frictionResult subsys tracker contact
    let forceLoss := forceHC + fr.1
    let forceTotal := forceH + forceLoss
    { contactId := some contact.contactId
      centerOfPressureInG := contactPt tracker contact
      forceOnSurface2InG := ((0 : Vec3), forceTotal)
      potentialEnergy := potentialEnergy
      powerLoss := powerHC + fr.2 }

end HertzCircular

--==============================================================================
-- Force and potential-energy cache builds
--==============================================================================

/-- `CompliantContactSubsystemImpl::ensureForceCacheValid` over a snapshot of
active circular-point contacts: each contact's generator is invoked with the
surface frame velocities; an invalid result is popped from the cache. -/
def buildForceCache (subsys : CompliantContactSubsystemImpl)
    (tracker : Tracker) (active : List CircularPointContact) :
    List ContactForce :=
  (active.map (fun c =>
    HertzCircular.calcContactForce subsys tracker c
      (tracker.frameVelocity c.surface1)
      (tracker.frameVelocity c.surface2))).filter
    (fun f => f.isValid)

/-- The Position-stage branch of
`CompliantContactSubsystemImpl::ensurePotentialEnergyCacheValid`: every
active contact's generator is invoked with both surface velocities set to
`SpatialVec(Vec3(0))` and only the potential-energy fields are summed. -/
def potentialEnergyPositionStage (subsys : CompliantContactSubsystemImpl)
    (tracker : Tracker) (active : List CircularPointContact) : ℝ :=
  (active.map (fun c =>
    (HertzCircular.calcContactForce subsys tracker c
      SpatialVec.zero SpatialVec.zero).potentialEnergy)).sum

/-- `realizeSubsystemAccelerationImpl`: the dissipated-energy state
variable's time derivative is the sum of the cached power losses. -/
def dissipatedEnergyDeriv (subsys : CompliantContactSubsystemImpl)
    (tracker : Tracker) (active : List CircularPointContact) : ℝ :=
  ((buildForceCache subsys tracker active).map
    (fun f => f.powerLoss)).sum

/-- A tracker state whose relative velocities are all zero (same materials):
the reference point for a "full force computation with the relative velocity
equal to zero". -/
def Tracker.withZeroVelocities (tracker : Tracker) : Tracker :=
  { tracker with
    velAtPoint := fun _ _ => 0
    frameVelocity := fun _ => SpatialVec.zero }

end

--==============================================================================
-- Vec3 component lemmas
--==============================================================================

namespace Vec3

@[simp] theorem zero_x : (0 : Vec3).x = 0 := rfl
@[simp] theorem zero_y : (0 : Vec3).y = 0 := rfl
@[simp] theorem zero_z : (0 : Vec3).z = 0 := rfl
@[simp] theorem add_x (a b : Vec3) : (a + b).x = a.x + b.x := rfl
@[simp] theorem add_y (a b : Vec3) : (a + b).y = a.y + b.y := rfl
@[simp] theorem add_z (a b : Vec3) : (a + b).z = a.z + b.z := rfl
@[simp] theorem sub_x (a b : Vec3) : (a - b).x = a.x - b.x := rfl
@[simp] theorem sub_y (a b : Vec3) : (a - b).y = a.y - b.y := rfl
@[simp] theorem sub_z (a b : Vec3) : (a - b).z = a.z - b.z := rfl
@[simp] theorem smul_x (r : ℝ) (v : Vec3) : (r • v).x = r * v.x := rfl
@[simp] theorem smul_y (r : ℝ) (v : Vec3) : (r • v).y = r * v.y := rfl
@[simp] theorem smul_z (r : ℝ) (v : Vec3) : (r • v).z = r * v.z := rfl

theorem ext_iff {a b : Vec3} : a = b ↔ a.x = b.x ∧ a.y = b.y ∧ a.z = b.z := by
  constructor
  · intro h; subst h; exact ⟨rfl, rfl, rfl⟩
  · rintro ⟨hx, hy, hz⟩; cases a; cases b; simp_all

@[simp] theorem zero_smul (v : Vec3) : (0 : ℝ) • v = 0 := by
  simp [ext_iff]

@[simp] theorem add_zero (v : Vec3) : v + 0 = v := by
  simp [ext_iff]

@[simp] theorem zero_add (v : Vec3) : 0 + v = v := by
  simp [ext_iff]

@[simp] theorem sub_zero (v : Vec3) : v - 0 = v := by
  simp [ext_iff]

@[simp] theorem sub_self (v : Vec3) : v - v = 0 := by
  simp [ext_iff]

@[simp] theorem dot_zero (v : Vec3) : v.dot 0 = 0 := by
  simp [dot]

@[simp] theorem zero_dot (v : Vec3) : Vec3.dot 0 v = 0 := by
  simp [dot]

@[simp] theorem normSqr_zero : (0 : Vec3).normSqr = 0 := by
  simp [normSqr]

end Vec3

--==============================================================================
-- Claims
--==============================================================================

/-- **C6.** For all coefficients `us ≥ ud ≥ 0`, `uv ≥ 0`, the four-segment
friction curve `stribeck us ud uv` is continuous in `v` (in particular across
the segment boundaries v = 1, 3, 4, where the adjoining formulas agree
exactly), and its value at `v = 0` is `0`. -/
theorem stribeck_continuous_and_zero_at_zero (us ud uv : ℝ)
    (hud : 0 ≤ ud) (hus : ud ≤ us) (huv : 0 ≤ uv) :
    Continuous (fun v => stribeck us ud uv v) ∧ stribeck us ud uv 0 = 0 := by
  constructor
  · have htail : Continuous fun v : ℝ =>
        if v ≤ 4 then ud + step5d uv uv (v - 3) else ud + uv * (v - 3) := by
      apply Continuous.if_le ?_ ?_ continuous_id continuous_const
      · intro x hx
        have hx4 : x = 4 := hx
        subst hx4
        simp only [step5d]
        ring
      · unfold step5d
        fun_prop
      · fun_prop
    have hmid : Continuous fun v : ℝ =>
        if v ≤ 3 then us - (us - ud) * step5 ((v - 1) / 2)
        else if v ≤ 4 then ud + step5d uv uv (v - 3) else ud + uv * (v - 3) := by
      apply Continuous.if_le ?_ htail continuous_id continuous_const
      · intro x hx
        have hx3 : x = 3 := hx
        subst hx3
        norm_num [step5, step5d]
      · unfold step5
        fun_prop
    have htop : Continuous fun v : ℝ => stribeck us ud uv v := by
      unfold stribeck
      apply Continuous.if_le ?_ hmid continuous_id continuous_const
      · intro x hx
        have hx1 : x = 1 := hx
        subst hx1
        norm_num [step5]
      · unfold step5
        fun_prop
    exact htop
  · norm_num [stribeck, step5]

/-- **C6 witness.** Instance at `us = 1`, `ud = 1/2`, `uv = 1`. -/
theorem stribeck_continuous_and_zero_at_zero_witness :
    Continuous (fun v => stribeck 1 (1/2) 1 v) ∧ stribeck 1 (1/2) 1 0 = 0 :=
  stribeck_continuous_and_zero_at_zero 1 (1/2) 1 (by norm_num) (by norm_num)
    (by norm_num)

/-- **C8.** `setTransitionVelocity` rejects every `vt ≤ 0` (no state change),
and for every `vt > 0` stores `vt` and a reciprocal consistent with it:
afterwards the stored transition velocity is `vt` and reciprocal × value
equals 1. -/
theorem setTransitionVelocity_spec (s : CompliantContactSubsystemImpl)
    (vt : ℝ) :
    (vt ≤ 0 → setTransitionVelocity s vt = none) ∧
    (0 < vt → ∃ s', setTransitionVelocity s vt = some s' ∧
      s'.transitionVelocity = vt ∧
      s'.ooTransitionVelocity * s'.transitionVelocity = 1) := by
  constructor
  · intro h
    simp [setTransitionVelocity, not_lt.mpr h]
  · intro h
    refine ⟨{ s with transitionVelocity := vt, ooTransitionVelocity := 1 / vt },
      ?_, rfl, ?_⟩
    · simp [setTransitionVelocity, h]
    · show 1 / vt * vt = 1
      field_simp

/-- **C8 witness.** `setTransitionVelocity` at `vt = -1` (rejected) and
`vt = 2` (stored with exact reciprocal). -/
theorem setTransitionVelocity_spec_witness :
    setTransitionVelocity implInitial (-1) = none ∧
    ∃ s', setTransitionVelocity implInitial 2 = some s' ∧
      s'.transitionVelocity = 2 ∧
      s'.ooTransitionVelocity * s'.transitionVelocity = 1 :=
  ⟨(setTransitionVelocity_spec implInitial (-1)).1 (by norm_num),
   (setTransitionVelocity_spec implInitial 2).2 (by norm_num)⟩

/-- **C9.** `setDissipatedEnergy` rejects every negative energy (no state
change), and for every `e ≥ 0` a set followed by a get returns exactly `e`. -/
theorem setDissipatedEnergy_spec (s : SimState) (e : ℝ) :
    (e < 0 → setDissipatedEnergy s e = none) ∧
    (0 ≤ e → ∃ s', setDissipatedEnergy s e = some s' ∧
      getDissipatedEnergy s' = e) := by
  constructor
  · intro h
    simp [setDissipatedEnergy, not_le.mpr h]
  · intro h
    exact ⟨{ s with dissipatedEnergy := e },
      by simp [setDissipatedEnergy, h], rfl⟩

/-- **C9 witness.** `setDissipatedEnergy (-1)` is rejected;
`setDissipatedEnergy 5` then `getDissipatedEnergy` returns 5. -/
theorem setDissipatedEnergy_spec_witness :
    setDissipatedEnergy ⟨0⟩ (-1) = none ∧
    ∃ s', setDissipatedEnergy ⟨0⟩ 5 = some s' ∧ getDissipatedEnergy s' = 5 :=
  ⟨(setDissipatedEnergy_spec ⟨0⟩ (-1)).1 (by norm_num),
   (setDissipatedEnergy_spec ⟨0⟩ 5).2 (by norm_num)⟩

/-- **C10.** Immediately after the `CompliantContactSubsystem` constructor,
a `HertzCircular` generator is registered for circular-point contacts, an
`ElasticFoundation` generator for triangle-mesh contacts, a `DoNothing`
default generator is present (`hasDefaultForceGenerator` is true), and
`getForceGenerator` returns some generator for every contact-type id. -/
theorem constructedSubsystem_generators_total :
    hasDefaultForceGenerator constructedSubsystem = true ∧
    (∀ t : ℕ, (getForceGenerator constructedSubsystem t).isSome = true) ∧
    getForceGenerator constructedSubsystem circularPointContactTypeId =
      some ⟨GeneratorKind.hertzCircular, circularPointContactTypeId⟩ ∧
    getForceGenerator constructedSubsystem triangleMeshContactTypeId =
      some ⟨GeneratorKind.elasticFoundation, triangleMeshContactTypeId⟩ := by
  have hgens : constructedSubsystem.generators =
      [(circularPointContactTypeId,
          ⟨GeneratorKind.hertzCircular, circularPointContactTypeId⟩),
       (triangleMeshContactTypeId,
          ⟨GeneratorKind.elasticFoundation, triangleMeshContactTypeId⟩)] := by
    rfl
  have hdef : constructedSubsystem.defaultGenerator =
      some ⟨GeneratorKind.doNothing, 0⟩ := rfl
  refine ⟨rfl, ?_, ?_, ?_⟩
  · intro t
    rw [getForceGenerator, hgens]
    simp only [List.find?, circularPointContactTypeId,
      triangleMeshContactTypeId]
    cases h1 : decide ((1 : ℕ) = t) <;> cases h2 : decide ((2 : ℕ) = t) <;>
      simp [hdef]
  · rw [getForceGenerator, hgens]
    simp [circularPointContactTypeId, triangleMeshContactTypeId, List.find?]
  · rw [getForceGenerator, hgens]
    simp [circularPointContactTypeId, triangleMeshContactTypeId, List.find?]

--------------------------------------------------------------------------------
-- Registry lemmas (towards C7)
--------------------------------------------------------------------------------

theorem find?_replaceKey (l : List (ℕ × ContactForceGenerator)) (t : ℕ)
    (g : ContactForceGenerator) :
    (l.map (fun q => if q.1 = t then (q.1, g) else q)).find?
        (fun p => p.1 = t) =
      (l.find? (fun p => p.1 = t)).map (fun p => (p.1, g)) := by
  induction l with
  | nil => rfl
  | cons q l ih =>
    by_cases hq : q.1 = t
    · simp [hq]
    · simp [hq, ih]

theorem filter_replaceKey_length (l : List (ℕ × ContactForceGenerator))
    (t : ℕ) (g : ContactForceGenerator) :
    ((l.map (fun q => if q.1 = t then (q.1, g) else q)).filter
        (fun p => p.1 = t)).length =
      (l.filter (fun p => p.1 = t)).length := by
  induction l with
  | nil => rfl
  | cons q l ih =>
    by_cases hq : q.1 = t
    · simp [List.filter_cons, hq, ih]
    · simp [List.filter_cons, hq, ih]

theorem filter_key_length_le_one (l : List (ℕ × ContactForceGenerator))
    (t : ℕ) (h : (l.map Prod.fst).Nodup) :
    (l.filter (fun p => p.1 = t)).length ≤ 1 := by
  induction l with
  | nil => simp
  | cons q l ih =>
    simp only [List.map_cons, List.nodup_cons] at h
    by_cases hq : q.1 = t
    · have hnil : l.filter (fun p => p.1 = t) = [] := by
        rw [List.filter_eq_nil_iff]
        intro p hp
        simp only [decide_eq_true_eq]
        intro hpt
        exact h.1 (by rw [hq, ← hpt]; exact List.mem_map_of_mem Prod.fst hp)
      simp [List.filter_cons, hq, hnil]
    · simp only [List.filter_cons, decide_eq_true_eq, hq, if_false]
      exact ih h.2

theorem count_pos_of_find?_some {l : List (ℕ × ContactForceGenerator)}
    {t : ℕ} {p : ℕ × ContactForceGenerator}
    (h : l.find? (fun p => p.1 = t) = some p) :
    1 ≤ (l.filter (fun p => p.1 = t)).length := by
  have hm := List.mem_of_find?_eq_some h
  have hp := List.find?_some h
  have hmem : p ∈ l.filter (fun p => p.1 = t) :=
    List.mem_filter.mpr ⟨hm, hp⟩
  exact List.length_pos_of_mem hmem

theorem adoptForceGenerator_find? (s : CompliantContactSubsystemImpl)
    (g : ContactForceGenerator) :
    (adoptForceGenerator s g).generators.find?
        (fun p => p.1 = g.contactTypeId) = some (g.contactTypeId, g) := by
  unfold adoptForceGenerator
  cases hf : s.generators.find? (fun p => p.1 = g.contactTypeId) with
  | none =>
    simp only [hf, List.find?_append]
    simp
  | some p =>
    have hp : p.1 = g.contactTypeId := by
      have := List.find?_some hf
      simpa using this
    simp only [hf, find?_replaceKey]
    simp [hp]

theorem adoptForceGenerator_count (s : CompliantContactSubsystemImpl)
    (g : ContactForceGenerator)
    (h : (s.generators.map Prod.fst).Nodup) :
    countGeneratorEntries (adoptForceGenerator s g) g.contactTypeId = 1 := by
  unfold countGeneratorEntries adoptForceGenerator
  cases hf : s.generators.find? (fun p => p.1 = g.contactTypeId) with
  | none =>
    have hnil : s.generators.filter (fun p => p.1 = g.contactTypeId) = [] := by
      rw [List.filter_eq_nil_iff]
      intro p hp hpt
      exact (List.find?_eq_none.mp hf p hp) hpt
    simp [List.filter_append, hnil]
  | some p =>
    simp only [hf, filter_replaceKey_length]
    exact le_antisymm (filter_key_length_le_one _ _ h)
      (count_pos_of_find?_some hf)

theorem adoptForceGenerator_nodupKeys (s : CompliantContactSubsystemImpl)
    (g : ContactForceGenerator)
    (h : (s.generators.map Prod.fst).Nodup) :
    ((adoptForceGenerator s g).generators.map Prod.fst).Nodup := by
  unfold adoptForceGenerator
  cases hf : s.generators.find? (fun p => p.1 = g.contactTypeId) with
  | none =>
    have hnot : g.contactTypeId ∉ s.generators.map Prod.fst := by
      intro hmem
      rcases List.mem_map.mp hmem with ⟨p, hp, hfst⟩
      exact (List.find?_eq_none.mp hf p hp) (by simp [hfst])
    simp only [List.map_append, List.map_cons, List.map_nil]
    rw [List.nodup_append]
    refine ⟨h, List.nodup_singleton _, ?_⟩
    intro a ha hb
    rw [List.mem_singleton.mp hb] at ha
    exact hnot ha
  | some p =>
    have hkeys : (s.generators.map
        (fun q => if q.1 = g.contactTypeId then (q.1, g) else q)).map
          Prod.fst = s.generators.map Prod.fst := by
      rw [List.map_map]
      apply List.map_congr_left
      intro q _
      by_cases hq : q.1 = g.contactTypeId <;> simp [hq]
    simp only [hf, hkeys]
    exact h

theorem adoptForceGenerator_disposed (s : CompliantContactSubsystemImpl)
    (g : ContactForceGenerator) (p : ℕ × ContactForceGenerator)
    (hf : s.generators.find? (fun q => q.1 = g.contactTypeId) = some p) :
    (adoptForceGenerator s g).disposed = p.2 :: s.disposed := by
  unfold adoptForceGenerator
  rw [hf]

theorem adoptForceGenerator_invalidates (s : CompliantContactSubsystemImpl)
    (g : ContactForceGenerator) :
    (adoptForceGenerator s g).topologyCacheValid = false := by
  unfold adoptForceGenerator
  split <;> rfl

/-- **C7.** After adopting two generators for the same contact-type id, the
registry holds exactly one entry for that id, whose value is the second
generator; the first generator has been disposed; and each adopt call
(`adoptForceGenerator` and `adoptDefaultForceGenerator` alike) invalidates
the topology cache, from which the cached force and potential-energy
results are derived. -/
theorem adoptForceGenerator_twice_spec (s : CompliantContactSubsystemImpl)
    (g1 g2 : ContactForceGenerator)
    (ht : g1.contactTypeId = g2.contactTypeId)
    (h : (s.generators.map Prod.fst).Nodup) :
    countGeneratorEntries (adoptForceGenerator (adoptForceGenerator s g1) g2)
        g2.contactTypeId = 1 ∧
    getForceGenerator (adoptForceGenerator (adoptForceGenerator s g1) g2)
        g2.contactTypeId = some g2 ∧
    g1 ∈ (adoptForceGenerator (adoptForceGenerator s g1) g2).disposed ∧
    (adoptForceGenerator s g1).topologyCacheValid = false ∧
    (adoptForceGenerator (adoptForceGenerator s g1) g2).topologyCacheValid
      = false ∧
    ∀ (s' : CompliantContactSubsystemImpl)
      (d : Option ContactForceGenerator),
      (adoptDefaultForceGenerator s' d).topologyCacheValid = false := by
  have hnodup1 := adoptForceGenerator_nodupKeys s g1 h
  have hfind1 : (adoptForceGenerator s g1).generators.find?
      (fun p => p.1 = g2.contactTypeId) = some (g2.contactTypeId, g1) := by
    rw [← ht]
    exact adoptForceGenerator_find? s g1
  refine ⟨adoptForceGenerator_count _ g2 hnodup1, ?_, ?_,
    adoptForceGenerator_invalidates s g1,
    adoptForceGenerator_invalidates _ g2,
    fun s' d => rfl⟩
  · unfold getForceGenerator
    rw [adoptForceGenerator_find?]
  · rw [adoptForceGenerator_disposed _ g2 _ hfind1]
    exact List.mem_cons_self _ _

/-- **C7 witness.** Two distinct generators adopted for type id 5 on the
freshly constructed impl. -/
theorem adoptForceGenerator_twice_spec_witness :
    countGeneratorEntries
        (adoptForceGenerator
          (adoptForceGenerator implInitial ⟨GeneratorKind.custom 0, 5⟩)
          ⟨GeneratorKind.custom 1, 5⟩) 5 = 1 ∧
    getForceGenerator
        (adoptForceGenerator
          (adoptForceGenerator implInitial ⟨GeneratorKind.custom 0, 5⟩)
          ⟨GeneratorKind.custom 1, 5⟩) 5 = some ⟨GeneratorKind.custom 1, 5⟩ ∧
    ⟨GeneratorKind.custom 0, 5⟩ ∈
      (adoptForceGenerator
        (adoptForceGenerator implInitial ⟨GeneratorKind.custom 0, 5⟩)
        ⟨GeneratorKind.custom 1, 5⟩).disposed ∧
    (adoptForceGenerator implInitial
      ⟨GeneratorKind.custom 0, 5⟩).topologyCacheValid = false ∧
    (adoptForceGenerator
      (adoptForceGenerator implInitial ⟨GeneratorKind.custom 0, 5⟩)
      ⟨GeneratorKind.custom 1, 5⟩).topologyCacheValid = false ∧
    ∀ (s' : CompliantContactSubsystemImpl)
      (d : Option ContactForceGenerator),
      (adoptDefaultForceGenerator s' d).topologyCacheValid = false :=
  adoptForceGenerator_twice_spec implInitial ⟨GeneratorKind.custom 0, 5⟩
    ⟨GeneratorKind.custom 1, 5⟩ rfl (by simp [implInitial])

--------------------------------------------------------------------------------
-- Hertz generator branch lemmas
--------------------------------------------------------------------------------

theorem calcContactForce_cleared_of_depth_nonpos
    (subsys : CompliantContactSubsystemImpl) (tracker : Tracker)
    (contact : CircularPointContact) (vgs1 vgs2 : SpatialVec)
    (hd : contact.depth ≤ 0) :
    HertzCircular.calcContactForce subsys tracker contact vgs1 vgs2 =
      ContactForce.cleared := by
  unfold HertzCircular.calcContactForce
  rw [if_pos hd]

theorem calcContactForce_yanking
    (subsys : CompliantContactSubsystemImpl) (tracker : Tracker)
    (contact : CircularPointContact) (vgs1 vgs2 : SpatialVec)
    (hd : 0 < contact.depth)
    (hn : HertzCircular.fNormal tracker contact ≤ 0) :
    HertzCircular.calcContactForce subsys tracker contact vgs1 vgs2 =
      { contactId := some contact.contactId
        centerOfPressureInG := HertzCircular.contactPt tracker contact
        forceOnSurface2InG := SpatialVec.zero
        potentialEnergy := 0
        powerLoss := 0 } := by
  unfold HertzCircular.calcContactForce
  rw [if_neg (not_le.mpr hd), if_pos hn]

theorem calcContactForce_normal
    (subsys : CompliantContactSubsystemImpl) (tracker : Tracker)
    (contact : CircularPointContact) (vgs1 vgs2 : SpatialVec)
    (hd : 0 < contact.depth)
    (hn : ¬ HertzCircular.fNormal tracker contact ≤ 0) :
    HertzCircular.calcContactForce subsys tracker contact vgs1 vgs2 =
      { contactId := some contact.contactId
        centerOfPressureInG := HertzCircular.contactPt tracker contact
        forceOnSurface2InG := ((0 : Vec3),
          HertzCircular.fH tracker contact • contact.normal +
            (HertzCircular.fHC tracker contact • contact.normal +
              (HertzCircular.frictionResult subsys tracker contact).1))
        potentialEnergy := (2 / 5) * HertzCircular.fH tracker contact *
          contact.depth
        powerLoss := HertzCircular.fHC tracker contact *
            HertzCircular.xdot tracker contact +
          (HertzCircular.frictionResult subsys tracker contact).2 } := by
  unfold HertzCircular.calcContactForce
  rw [if_neg (not_le.mpr hd), if_neg hn]

/-- **C4.** For a contact with depth ≤ 0 the generator returns an invalid
(cleared) `ContactForce`, and the force-cache build pops it: the contact is
absent from the cache rather than stored as a zero force. -/
theorem hertz_depth_nonpos_invalid_and_omitted
    (subsys : CompliantContactSubsystemImpl) (tracker : Tracker)
    (contact : CircularPointContact) (vgs1 vgs2 : SpatialVec)
    (hd : contact.depth ≤ 0) :
    (HertzCircular.calcContactForce subsys tracker contact
      vgs1 vgs2).isValid = false ∧
    buildForceCache subsys tracker [contact] = [] := by
  have hc := calcContactForce_cleared_of_depth_nonpos subsys tracker contact
    vgs1 vgs2 hd
  have hc' := calcContactForce_cleared_of_depth_nonpos subsys tracker contact
    (tracker.frameVelocity contact.surface1)
    (tracker.frameVelocity contact.surface2) hd
  constructor
  · rw [hc]
    rfl
  · simp [buildForceCache, hc', ContactForce.cleared, ContactForce.isValid]

/-- **C4 witness.** A zero-depth contact in the C1 scenario produces an
invalid result and an empty force cache. -/
theorem hertz_depth_nonpos_invalid_and_omitted_witness :
    (HertzCircular.calcContactForce implInitial trackerC1
      ⟨1, 2, 0, ⟨1, 0, 0⟩, ⟨0, 0, 0⟩, 1, 7⟩
      SpatialVec.zero SpatialVec.zero).isValid = false ∧
    buildForceCache implInitial trackerC1
      [⟨1, 2, 0, ⟨1, 0, 0⟩, ⟨0, 0, 0⟩, 1, 7⟩] = [] :=
  hertz_depth_nonpos_invalid_and_omitted implInitial trackerC1
    ⟨1, 2, 0, ⟨1, 0, 0⟩, ⟨0, 0, 0⟩, 1, 7⟩ SpatialVec.zero SpatialVec.zero
    (by norm_num)

/-- **C3.** In the yanking case (depth > 0 but total normal force
`fNormal = fH + fHC ≤ 0`) the generator reports exactly zero spatial force,
zero potential energy and zero power loss, yet the record is valid, carries
the contact id, and is retained by the force-cache build. -/
theorem hertz_yanking_zero_force_valid
    (subsys : CompliantContactSubsystemImpl) (tracker : Tracker)
    (contact : CircularPointContact) (vgs1 vgs2 : SpatialVec)
    (hd : 0 < contact.depth)
    (hn : HertzCircular.fNormal tracker contact ≤ 0) :
    (HertzCircular.calcContactForce subsys tracker contact vgs1
        vgs2).forceOnSurface2InG = SpatialVec.zero ∧
    (HertzCircular.calcContactForce subsys tracker contact vgs1
        vgs2).potentialEnergy = 0 ∧
    (HertzCircular.calcContactForce subsys tracker contact vgs1
        vgs2).powerLoss = 0 ∧
    (HertzCircular.calcContactForce subsys tracker contact vgs1
        vgs2).isValid = true ∧
    (HertzCircular.calcContactForce subsys tracker contact vgs1
        vgs2).contactId = some contact.contactId ∧
    buildForceCache subsys tracker [contact] =
      [HertzCircular.calcContactForce subsys tracker contact vgs1 vgs2] := by
  have hy := calcContactForce_yanking subsys tracker contact vgs1 vgs2 hd hn
  have hy' := calcContactForce_yanking subsys tracker contact
    (tracker.frameVelocity contact.surface1)
    (tracker.frameVelocity contact.surface2) hd hn
  refine ⟨by rw [hy], by rw [hy], by rw [hy], by rw [hy]; rfl,
    by rw [hy], ?_⟩
  simp [buildForceCache, hy', hy, ContactForce.isValid]

--------------------------------------------------------------------------------
-- Sign lemmas for the Hertz quantities
--------------------------------------------------------------------------------

theorem s1_nonneg (tracker : Tracker) (contact : CircularPointContact)
    (hk : 0 ≤ (tracker.material contact.surface1).stiffness23) :
    0 ≤ HertzCircular.s1 tracker contact := by
  unfold HertzCircular.s1 HertzCircular.mat1 HertzCircular.mat2
  exact div_nonneg hk (add_nonneg hk hk)

theorem s1_le_one (tracker : Tracker) (contact : CircularPointContact)
    (hk : 0 ≤ (tracker.material contact.surface1).stiffness23) :
    HertzCircular.s1 tracker contact ≤ 1 := by
  unfold HertzCircular.s1 HertzCircular.mat1 HertzCircular.mat2
  rcases eq_or_lt_of_le hk with h | h
  · rw [← h]
    norm_num
  · rw [div_le_one (by linarith)]
    linarith

theorem k_nonneg (tracker : Tracker) (contact : CircularPointContact)
    (hk : 0 ≤ (tracker.material contact.surface1).stiffness23) :
    0 ≤ HertzCircular.k tracker contact := by
  unfold HertzCircular.k HertzCircular.mat1
  exact mul_nonneg hk (s1_nonneg tracker contact hk)

theorem fH_nonneg (tracker : Tracker) (contact : CircularPointContact)
    (hk : 0 ≤ (tracker.material contact.surface1).stiffness23)
    (hd : 0 ≤ contact.depth) :
    0 ≤ HertzCircular.fH tracker contact := by
  unfold HertzCircular.fH
  exact mul_nonneg
    (mul_nonneg (mul_nonneg (by norm_num) (k_nonneg tracker contact hk)) hd)
    (Real.sqrt_nonneg _)

/-- Because the source reads surface 1's material twice, the combined
dissipation `c1·s1 + c2·s2` collapses to surface 1's dissipation. -/
theorem cdiss_eq (tracker : Tracker) (contact : CircularPointContact) :
    HertzCircular.cdiss tracker contact =
      (tracker.material contact.surface1).dissipation := by
  unfold HertzCircular.cdiss HertzCircular.s2 HertzCircular.mat1
    HertzCircular.mat2
  ring

theorem combineCoef_self (u : ℝ) (h : 0 ≤ u) : combineCoef u u = u := by
  unfold combineCoef
  rcases eq_or_lt_of_le h with h0 | h0
  · rw [← h0]
    norm_num
  · rw [if_pos (by positivity)]
    field_simp
    ring

--------------------------------------------------------------------------------
-- The yanking fixture
--------------------------------------------------------------------------------

theorem trackerYank_xdot : HertzCircular.xdot trackerYank contact0 = -1 := by
  simp [HertzCircular.xdot, HertzCircular.relVel, trackerYank, contact0,
    Vec3.dot]

theorem trackerYank_fNormal_nonpos :
    HertzCircular.fNormal trackerYank contact0 ≤ 0 := by
  have hfH : 0 ≤ HertzCircular.fH trackerYank contact0 :=
    fH_nonneg trackerYank contact0
      (by norm_num [trackerYank, matC, contact0])
      (by norm_num [contact0])
  have hcd : HertzCircular.cdiss trackerYank contact0 = 1 := by
    rw [cdiss_eq]
    norm_num [trackerYank, matC, contact0]
  unfold HertzCircular.fNormal HertzCircular.fHC
  rw [trackerYank_xdot, hcd]
  nlinarith [hfH]

/-- **C3 witness.** The concrete separating state: depth 0.01 with
penetration rate −1 and dissipation 1 gives `fNormal = −fH/2 ≤ 0`. -/
theorem hertz_yanking_zero_force_valid_witness :
    (HertzCircular.calcContactForce implInitial trackerYank contact0
        SpatialVec.zero SpatialVec.zero).forceOnSurface2InG =
      SpatialVec.zero ∧
    (HertzCircular.calcContactForce implInitial trackerYank contact0
        SpatialVec.zero SpatialVec.zero).potentialEnergy = 0 ∧
    (HertzCircular.calcContactForce implInitial trackerYank contact0
        SpatialVec.zero SpatialVec.zero).powerLoss = 0 ∧
    (HertzCircular.calcContactForce implInitial trackerYank contact0
        SpatialVec.zero SpatialVec.zero).isValid = true ∧
    (HertzCircular.calcContactForce implInitial trackerYank contact0
        SpatialVec.zero SpatialVec.zero).contactId = some contact0.contactId ∧
    buildForceCache implInitial trackerYank [contact0] =
      [HertzCircular.calcContactForce implInitial trackerYank contact0
        SpatialVec.zero SpatialVec.zero] :=
  hertz_yanking_zero_force_valid implInitial trackerYank contact0
    SpatialVec.zero SpatialVec.zero (by norm_num [contact0])
    trackerYank_fNormal_nonpos

--------------------------------------------------------------------------------
-- Stribeck curve sign lemmas (towards C5)
--------------------------------------------------------------------------------

theorem step5_nonneg (x : ℝ) (h0 : 0 ≤ x) (h1 : x ≤ 1) : 0 ≤ step5 x := by
  show 0 ≤ x * x * x * (10 + x * (6 * x - 15))
  have hq : (0 : ℝ) ≤ 10 + x * (6 * x - 15) := by
    nlinarith [sq_nonneg (4 * x - 5)]
  have hx3 : 0 ≤ x * x * x := by positivity
  nlinarith [mul_nonneg hx3 hq]

theorem step5_le_one (x : ℝ) (h0 : 0 ≤ x) (h1 : x ≤ 1) : step5 x ≤ 1 := by
  show x * x * x * (10 + x * (6 * x - 15)) ≤ 1
  have h1' : 0 ≤ 1 - x := by linarith
  have ha : 0 ≤ (1 - x) * (1 - x) * (1 - x) :=
    mul_nonneg (mul_nonneg h1' h1') h1'
  have hb : (0 : ℝ) ≤ 6 * x * x + 3 * x + 1 := by positivity
  nlinarith [mul_nonneg ha hb]

theorem step5d_self_nonneg (y x : ℝ) (hy : 0 ≤ y) (hx : 0 ≤ x) :
    0 ≤ step5d y y x := by
  show 0 ≤ x * x * x *
    ((10 * y - 4 * y) + x * ((-15 * y + 7 * y) + x * (6 * y - 3 * y)))
  have ha : 0 ≤ x * x * x := by positivity
  have hb : (0 : ℝ) ≤ 3 * x * x - 8 * x + 6 := by
    nlinarith [sq_nonneg (3 * x - 4)]
  nlinarith [mul_nonneg hy (mul_nonneg ha hb)]

theorem stribeck_nonneg (us ud uvs v : ℝ) (h1 : ud ≤ us) (h2 : 0 ≤ ud)
    (h3 : 0 ≤ uvs) (h4 : 0 ≤ v) : 0 ≤ stribeck us ud uvs v := by
  unfold stribeck
  split_ifs with ha hb hc
  · exact mul_nonneg (le_trans h2 h1) (step5_nonneg v h4 ha)
  · push_neg at ha
    have ht0 : 0 ≤ (v - 1) / 2 := by linarith
    have ht1 : (v - 1) / 2 ≤ 1 := by linarith
    have hle := step5_le_one ((v - 1) / 2) ht0 ht1
    have hmul := mul_le_mul_of_nonneg_left hle (sub_nonneg.mpr h1)
    linarith
  · push_neg at ha hb
    have := step5d_self_nonneg uvs (v - 3) h3 (by linarith)
    linarith
  · push_neg at ha hb hc
    nlinarith [mul_nonneg h3 (by linarith : (0 : ℝ) ≤ v - 3)]

theorem frictionResult_power_nonneg (subsys : CompliantContactSubsystemImpl)
    (tracker : Tracker) (contact : CircularPointContact)
    (hm : (tracker.material contact.surface1).WellFormed)
    (hvt : 0 < subsys.transitionVelocity)
    (hoo : subsys.ooTransitionVelocity = 1 / subsys.transitionVelocity)
    (hfN : 0 ≤ HertzCircular.fNormal tracker contact) :
    0 ≤ (HertzCircular.frictionResult subsys tracker contact).2 := by
  obtain ⟨hk, hc, hdyn, hds, hv⟩ := hm
  unfold HertzCircular.frictionResult
  split_ifs with hslip
  · have hvslip : 0 ≤ HertzCircular.vslip tracker contact :=
      Real.sqrt_nonneg _
    have hus : HertzCircular.usEff tracker contact =
        (tracker.material contact.surface1).staticFriction := by
      unfold HertzCircular.usEff HertzCircular.mat1 HertzCircular.mat2
      exact combineCoef_self _ (le_trans hdyn hds)
    have hud : HertzCircular.udEff tracker contact =
        (tracker.material contact.surface1).dynamicFriction := by
      unfold HertzCircular.udEff HertzCircular.mat1 HertzCircular.mat2
      exact combineCoef_self _ hdyn
    have huv : HertzCircular.uvEff tracker contact =
        (tracker.material contact.surface1).viscousFriction := by
      unfold HertzCircular.uvEff HertzCircular.mat1 HertzCircular.mat2
      exact combineCoef_self _ hv
    have hmu : 0 ≤ HertzCircular.mu subsys tracker contact := by
      unfold HertzCircular.mu
      rw [hus, hud, huv]
      apply stribeck_nonneg
      · exact hds
      · exact hdyn
      · exact mul_nonneg hv hvt.le
      · rw [hoo]
        have hvslip' : 0 ≤ HertzCircular.vslip tracker contact :=
          Real.sqrt_nonneg _
        positivity
    show 0 ≤ HertzCircular.fFriction subsys tracker contact *
      HertzCircular.vslip tracker contact
    unfold HertzCircular.fFriction
    exact mul_nonneg (mul_nonneg hfN hmu) hvslip
  · norm_num

/-- **C5.** With well-formed materials and a consistent transition-velocity
pair, every `ContactForce` the Hertz generator produces has power loss ≥ 0
(the Hunt-Crossley term `fHC·xdot` and the friction term `fFriction·vslip`
are each nonnegative when `fNormal > 0`, and the depth ≤ 0 and yanking
cases report 0), and hence the dissipated-energy variable's time derivative
— the sum of the cached power losses — is nonnegative, so absent external
reset the integrated dissipated energy is non-decreasing. -/
theorem hertz_powerLoss_nonneg (subsys : CompliantContactSubsystemImpl)
    (tracker : Tracker) (contact : CircularPointContact)
    (vgs1 vgs2 : SpatialVec) (active : List CircularPointContact)
    (hm : ∀ i, (tracker.material i).WellFormed)
    (hvt : 0 < subsys.transitionVelocity)
    (hoo : subsys.ooTransitionVelocity = 1 / subsys.transitionVelocity) :
    0 ≤ (HertzCircular.calcContactForce subsys tracker contact
          vgs1 vgs2).powerLoss ∧
    0 ≤ dissipatedEnergyDeriv subsys tracker active := by
  have main : ∀ (c : CircularPointContact) (v1 v2 : SpatialVec),
      0 ≤ (HertzCircular.calcContactForce subsys tracker c v1 v2).powerLoss := by
    intro c v1 v2
    by_cases hd : c.depth ≤ 0
    · rw [calcContactForce_cleared_of_depth_nonpos _ _ _ _ _ hd]
      exact le_rfl
    · push_neg at hd
      by_cases hn : HertzCircular.fNormal tracker c ≤ 0
      · rw [calcContactForce_yanking _ _ _ _ _ hd hn]
      · rw [calcContactForce_normal _ _ _ _ _ hd hn]
        obtain ⟨hk, hc, hdyn, hds, hv⟩ := hm c.surface1
        have hfH : 0 ≤ HertzCircular.fH tracker c :=
          fH_nonneg tracker c hk hd.le
        have hHC : 0 ≤ HertzCircular.fHC tracker c *
            HertzCircular.xdot tracker c := by
          unfold HertzCircular.fHC
          rw [cdiss_eq]
          nlinarith [mul_nonneg (mul_nonneg
            (mul_nonneg hfH (by norm_num : (0:ℝ) ≤ 1.5)) hc)
            (sq_nonneg (HertzCircular.xdot tracker c))]
        have hFr : 0 ≤ (HertzCircular.frictionResult subsys tracker c).2 :=
          frictionResult_power_nonneg subsys tracker c (hm c.surface1)
            hvt hoo (le_of_lt (not_le.mp hn))
        show 0 ≤ HertzCircular.fHC tracker c * HertzCircular.xdot tracker c +
          (HertzCircular.frictionResult subsys tracker c).2
        linarith
  refine ⟨main contact vgs1 vgs2, ?_⟩
  unfold dissipatedEnergyDeriv
  apply List.sum_nonneg
  intro x hx
  rcases List.mem_map.mp hx with ⟨f, hf, rfl⟩
  rcases List.mem_filter.mp hf with ⟨hf', _⟩
  rcases List.mem_map.mp hf' with ⟨c, hcm, rfl⟩
  exact main c _ _

/-- **C5 witness.** The yanking fixture: well-formed materials with
dissipation 1, the default subsystem parameters. -/
theorem hertz_powerLoss_nonneg_witness :
    0 ≤ (HertzCircular.calcContactForce implInitial trackerYank contact0
          SpatialVec.zero SpatialVec.zero).powerLoss ∧
    0 ≤ dissipatedEnergyDeriv implInitial trackerYank [contact0] :=
  hertz_powerLoss_nonneg implInitial trackerYank contact0
    SpatialVec.zero SpatialVec.zero [contact0]
    (fun i => by norm_num [trackerYank, matC, ContactMaterial.WellFormed])
    (by norm_num [implInitial])
    (by norm_num [implInitial])

--------------------------------------------------------------------------------
-- C1: the generator reads surface 1's material twice
--------------------------------------------------------------------------------

theorem trackerC1_k : HertzCircular.k trackerC1 contact0 = 50 := by
  unfold HertzCircular.k HertzCircular.s1 HertzCircular.mat1
    HertzCircular.mat2
  norm_num [trackerC1, matA, contact0]

theorem trackerC1_xdot : HertzCircular.xdot trackerC1 contact0 = 0 := by
  simp [HertzCircular.xdot, HertzCircular.relVel, trackerC1, Vec3.dot]

theorem trackerC1_fHC : HertzCircular.fHC trackerC1 contact0 = 0 := by
  unfold HertzCircular.fHC
  rw [trackerC1_xdot]
  ring

theorem trackerC1_fH : HertzCircular.fH trackerC1 contact0 =
    (4 / 3) * 50 * 0.01 * Real.sqrt (1 * 50 * 0.01) := by
  unfold HertzCircular.fH
  rw [trackerC1_k]
  norm_num [contact0]

theorem trackerC1_fH_pos : 0 < HertzCircular.fH trackerC1 contact0 := by
  rw [trackerC1_fH]
  have hs : (0 : ℝ) < Real.sqrt (1 * 50 * 0.01) :=
    Real.sqrt_pos.mpr (by norm_num)
  nlinarith [hs]

theorem trackerC1_fNormal_pos :
    ¬ HertzCircular.fNormal trackerC1 contact0 ≤ 0 := by
  unfold HertzCircular.fNormal HertzCircular.fHC
  rw [trackerC1_xdot]
  simp only [mul_zero, add_zero]
  exact not_le.mpr trackerC1_fH_pos

theorem trackerC1_velTangent :
    HertzCircular.velTangent trackerC1 contact0 = 0 := by
  unfold HertzCircular.velTangent
  rw [trackerC1_xdot]
  simp [HertzCircular.relVel, trackerC1, Vec3.ext_iff]

theorem trackerC1_friction :
    HertzCircular.frictionResult implInitial trackerC1 contact0 = (0, 0) := by
  unfold HertzCircular.frictionResult HertzCircular.vslipSq
  rw [trackerC1_velTangent]
  rw [if_neg]
  simp [significantReal]

/-- **C1.** Code-bug evaluation: with surface 1's stiffness 100 and surface
2's stiffness 400 (dissipation-free, at rest, depth 0.01, radius 1), the
generator produces a valid record with zero friction and power loss, but its
Hertz force uses combined stiffness k = 50 — because the source fetches both
materials from `getSurface1()` — not the k = 80 the claim requires, and the
two magnitudes differ. -/
theorem hertzCircular_ignores_surface2_material :
    (HertzCircular.calcContactForce implInitial trackerC1 contact0
        SpatialVec.zero SpatialVec.zero).isValid = true ∧
    (HertzCircular.calcContactForce implInitial trackerC1 contact0
        SpatialVec.zero SpatialVec.zero).forceOnSurface2InG =
      ((0 : Vec3),
        ((4 / 3) * 50 * 0.01 * Real.sqrt (1 * 50 * 0.01)) •
          contact0.normal) ∧
    (HertzCircular.calcContactForce implInitial trackerC1 contact0
        SpatialVec.zero SpatialVec.zero).potentialEnergy =
      (2 / 5) * ((4 / 3) * 50 * 0.01 * Real.sqrt (1 * 50 * 0.01)) * 0.01 ∧
    (HertzCircular.calcContactForce implInitial trackerC1 contact0
        SpatialVec.zero SpatialVec.zero).powerLoss = 0 ∧
    (4 / 3) * 50 * (0.01 : ℝ) * Real.sqrt (1 * 50 * 0.01) ≠
      (4 / 3) * 80 * 0.01 * Real.sqrt (1 * 80 * 0.01) := by
  have hd : (0 : ℝ) < contact0.depth := by norm_num [contact0]
  have hcalc := calcContactForce_normal implInitial trackerC1 contact0
    SpatialVec.zero SpatialVec.zero hd trackerC1_fNormal_pos
  refine ⟨by rw [hcalc]; rfl, ?_, ?_, ?_, ?_⟩
  · rw [hcalc]
    simp only [trackerC1_fHC, trackerC1_friction, trackerC1_fH]
    simp [Vec3.ext_iff]
  · rw [hcalc]
    simp only [trackerC1_fH]
    norm_num [contact0]
  · rw [hcalc]
    simp only [trackerC1_fHC, trackerC1_friction, trackerC1_xdot]
    ring
  · have hA : Real.sqrt (1 * 50 * 0.01) < 3 / 4 := by
      rw [show (1 * 50 * 0.01 : ℝ) = 0.5 by norm_num]
      rw [Real.sqrt_lt' (by norm_num)]
      norm_num
    have hB : (4 / 5 : ℝ) < Real.sqrt (1 * 80 * 0.01) := by
      rw [show (1 * 80 * 0.01 : ℝ) = 0.8 by norm_num]
      rw [Real.lt_sqrt (by norm_num)]
      norm_num
    intro heq
    nlinarith [hA, hB, Real.sqrt_nonneg (1 * 50 * (0.01 : ℝ))]

--------------------------------------------------------------------------------
-- C2: the position-stage PE path is not velocity independent
--------------------------------------------------------------------------------

theorem zeroVel_xdot :
    HertzCircular.xdot trackerYank.withZeroVelocities contact0 = 0 := by
  simp [HertzCircular.xdot, HertzCircular.relVel, Tracker.withZeroVelocities,
    Vec3.dot]

theorem zeroVel_k :
    HertzCircular.k trackerYank.withZeroVelocities contact0 = 50 := by
  unfold HertzCircular.k HertzCircular.s1 HertzCircular.mat1
    HertzCircular.mat2
  norm_num [Tracker.withZeroVelocities, trackerYank, matC, contact0]

theorem zeroVel_fH_pos :
    0 < HertzCircular.fH trackerYank.withZeroVelocities contact0 := by
  unfold HertzCircular.fH
  rw [zeroVel_k]
  have hs : (0 : ℝ) <
      Real.sqrt (contact0.effectiveRadius * 50 * contact0.depth) :=
    Real.sqrt_pos.mpr (by norm_num [contact0])
  have hdep : contact0.depth = 0.01 := rfl
  nlinarith [hs, hdep ▸ hs]

theorem zeroVel_fNormal_pos :
    ¬ HertzCircular.fNormal trackerYank.withZeroVelocities contact0 ≤ 0 := by
  unfold HertzCircular.fNormal HertzCircular.fHC
  rw [zeroVel_xdot]
  simp only [mul_zero, add_zero]
  exact not_le.mpr zeroVel_fH_pos

/-- **C2.** Code-bug evaluation: in a separating state (yanking), the
Position-stage potential-energy derivation — which passes zero surface
velocities that the generator then ignores in favour of the state's
velocities — yields 0, whereas the same generator's full computation at the
same depth with the relative velocity actually equal to zero yields a
strictly positive potential energy. -/
theorem potentialEnergy_positionStage_mismatch :
    potentialEnergyPositionStage implInitial trackerYank [contact0] = 0 ∧
    0 < (HertzCircular.calcContactForce implInitial
          trackerYank.withZeroVelocities contact0
          SpatialVec.zero SpatialVec.zero).potentialEnergy := by
  constructor
  · have h1 := calcContactForce_yanking implInitial trackerYank contact0
      SpatialVec.zero SpatialVec.zero (by norm_num [contact0])
      trackerYank_fNormal_nonpos
    simp [potentialEnergyPositionStage, h1]
  · have hcalc := calcContactForce_normal implInitial
      trackerYank.withZeroVelocities contact0 SpatialVec.zero SpatialVec.zero
      (by norm_num [contact0]) zeroVel_fNormal_pos
    rw [hcalc]
    show 0 < (2 / 5) *
      HertzCircular.fH trackerYank.withZeroVelocities contact0 *
      contact0.depth
    have hdep : contact0.depth = 0.01 := rfl
    nlinarith [zeroVel_fH_pos, hdep ▸ (by norm_num : (0.01 : ℝ) > 0)]
